import Mathlib

/-!
Verification of the sso-cli credential broker (`src/sso_cli/auth.py`,
`src/sso_cli/cli.py`) against its natural-language specification.

The Python code is shallowly embedded: the in-memory configuration dict of
`SSOAuthenticator` becomes an explicit state value threaded through each
operation, interactive prompts (`Prompt.ask`, `getpass`) become explicit
string inputs, HTTP responses become an oracle mapping the index of each
POST to a response, and external library calls (base64 decoding, JSON
parsing) become function parameters returning `Option` (with `none`
standing for a raised exception).  Python dicts are association lists that
preserve insertion order, matching dict iteration semantics; dict
assignment overwrites in place or appends a fresh key at the end.
-/

namespace SsoCli

/-- Python truthiness of an optional string: `None` and `""` are falsy
(`config.get(k)` yields `None` for an absent key). -/
def pyT (o : Option String) : Bool := !(o.getD "").isEmpty

/-- Python `s.startswith(p)`, via the character lists of the strings. -/
def startswith (s p : String) : Bool := p.toList.isPrefixOf s.toList

/-- Python `s.split("@")[0]`: the part of `s` before the first `@`
(the whole of `s` when it has no `@`). -/
def localPart (s : String) : String :=
  String.mk (s.toList.takeWhile (fun c => c != '@'))

/-- Split a character list at every occurrence of `c`, keeping empty
pieces — the semantics of Python `s.split(c)` for a one-character
separator. -/
def splitChar (c : Char) : List Char → List (List Char)
  | [] => [[]]
  | x :: xs =>
    match splitChar c xs with
    | [] => [[]]
    | g :: gs => if x == c then [] :: g :: gs else (x :: g) :: gs

/-- Python `token.split('.')`. -/
def pySplit (c : Char) (s : String) : List String :=
  (splitChar c s.toList).map (fun l => String.mk l)

/-- Python `s.strip()`: drop whitespace from both ends. -/
def pyStrip (s : String) : String :=
  String.mk (((s.toList.dropWhile Char.isWhitespace).reverse.dropWhile
    Char.isWhitespace).reverse)

/-- Lexicographic comparison of character lists by code point — the order
Python uses to compare strings.  `charListLe x y` is `x ≤ y`. -/
def charListLe : List Char → List Char → Bool
  | [], _ => true
  | _ :: _, [] => false
  | a :: as, b :: bs =>
    if a.toNat < b.toNat then true
    else if b.toNat < a.toNat then false
    else charListLe as bs

/-- Python string comparison `a <= b` (lexicographic by code point). -/
def strle (a b : String) : Bool := charListLe a.toList b.toList

/-- One environment entry of the configuration
(`config["environments"][env_key]` in `auth.py`). -/
structure EnvConfig where
  sso_url : String := ""
  realm : String := ""
  client_id : Option String := none
deriving DecidableEq, Repr

/-- One user entry of the configuration
(`config["users"][environment][user_key]` in `auth.py`). -/
structure UserConfig where
  auth_type : Option String := none
  email : Option String := none
  client_id : Option String := none
deriving DecidableEq, Repr

/-- Key of the OS keyring: `(environment, user_key, secret_type)`
(`SecretManager.get_secret_key` in `secrets.py`). -/
abbrev SecretKey := String × String × String

/-- The mutable state of `SSOAuthenticator` plus the keyring: the
`environments` and `users` maps of the configuration dict and the secret
store.  Persistence (`save_config`, keyring writes) is immediate, so the
in-memory value is also the persisted one. -/
structure St where
  environments : List (String × EnvConfig) := []
  users : List (String × List (String × UserConfig)) := []
  secrets : List (SecretKey × String) := []
deriving DecidableEq, Repr

/-- Python dict lookup `d.get(k)` on an insertion-ordered dict. -/
def alookup {α : Type} (l : List (String × α)) (k : String) : Option α :=
  (l.find? (fun p => p.1 == k)).map (fun p => p.2)

/-- Python dict assignment `d[k] = v`: overwrite in place when the key
exists, otherwise append at the end. -/
def aset {α : Type} (l : List (String × α)) (k : String) (v : α) :
    List (String × α) :=
  if l.any (fun p => p.1 == k) then
    l.map (fun p => if p.1 == k then (k, v) else p)
  else l ++ [(k, v)]

/-- `keyring.get_password` (`SecretManager.get_secret`). -/
def getSecret (s : List (SecretKey × String)) (k : SecretKey) : Option String :=
  (s.find? (fun e => e.1 == k)).map (fun e => e.2)

/-- `keyring.set_password` (`SecretManager.set_secret`): overwrite the
entry at `k`, or create it. -/
def setSecret (s : List (SecretKey × String)) (k : SecretKey) (v : String) :
    List (SecretKey × String) :=
  (k, v) :: s.filter (fun e => !(e.1 == k))

/-- `get_available_users_for_environment` in `auth.py`:
`config.get("users", {}).get(environment, {})`. -/
def envUsers (st : St) (environment : String) : List (String × UserConfig) :=
  (alookup st.users environment).getD []

/-- Display string of a user entry: `email or client_id or key`
(`auth.py`, `find_user_by_key` / `find_users_by_prefix`). -/
def display (key : String) (c : UserConfig) : String :=
  if pyT c.email then c.email.getD ""
  else if pyT c.client_id then c.client_id.getD ""
  else key

/-- The per-candidate prefix condition of `find_user_by_key` /
`find_users_by_prefix` in `auth.py`: key, or (nonempty) email local-part,
or (nonempty) client id starts with the query. -/
def userMatchesQuery (q key : String) (c : UserConfig) : Bool :=
  startswith key q ||
  (pyT c.email && startswith (localPart (c.email.getD "")) q) ||
  (pyT c.client_id && startswith (c.client_id.getD "") q)

/-- `SSOAuthenticator.find_user_by_key` (`auth.py` lines 107-128):
exact key match, then exact email local-part match (first in dict order),
then unique prefix match over key / email local-part / client id. -/
def find_user_by_key (users : List (String × UserConfig)) (user_key : String) :
    Option String :=
  if users.any (fun p => p.1 == user_key) then some user_key
  else
    match users.find?
        (fun p => pyT p.2.email && (localPart (p.2.email.getD "") == user_key)) with
    | some p => some p.1
    | none =>
      let ms := (users.filter (fun p => userMatchesQuery user_key p.1 p.2)).map
        (fun p => (p.1, display p.1 p.2))
      if ms.length == 1 then some ((ms.headD ("", "")).1) else none

/-- `SSOAuthenticator.find_users_by_prefix` (`auth.py` lines 130-142). -/
def find_users_by_prefix (users : List (String × UserConfig)) (p : String) :
    List (String × String) :=
  (users.filter (fun u => userMatchesQuery p u.1 u.2)).map
    (fun u => (u.1, display u.1 u.2))

/-- `SSOAuthenticator.find_environment_by_prefix` (`auth.py` lines 144-149):
the unique environment key starting with `p`, else `None`. -/
def find_environment_by_prefix (envs : List String) (p : String) : Option String :=
  let ms := envs.filter (fun key => startswith key p)
  if ms.length == 1 then some (ms.headD "") else none

/-- `SSOAuthenticator.find_environments_by_prefix` (`auth.py` lines 151-153). -/
def find_environments_by_prefix (envs : List String) (p : String) : List String :=
  envs.filter (fun key => startswith key p)

/-- Tail of `resolve_environment` in `cli.py` (after the unique-match
shortcut): exit with the match list when ambiguous, else the first match,
else the literal argument. -/
def resolve_environment_rest (envs : List String) (env_arg : String) :
    Except (List String) String :=
  let ms := find_environments_by_prefix envs env_arg
  if ms.length > 1 then .error ms
  else match ms with
    | [] => .ok env_arg
    | m :: _ => .ok m

/-- `resolve_environment` in `cli.py` (lines 96-106).  `if env_key:` is
Python truthiness, so an empty-string result also falls through. -/
def resolve_environment (envs : List String) (env_arg : String) :
    Except (List String) String :=
  match find_environment_by_prefix envs env_arg with
  | some k => if !k.isEmpty then .ok k else resolve_environment_rest envs env_arg
  | none => resolve_environment_rest envs env_arg

/-- Tail of `resolve_user` in `cli.py`. -/
def resolve_user_rest (users : List (String × UserConfig)) (user_arg : String) :
    Except (List (String × String)) String :=
  let ms := find_users_by_prefix users user_arg
  if ms.length > 1 then .error ms
  else match ms with
    | [] => .ok user_arg
    | m :: _ => .ok m.1

/-- `resolve_user` in `cli.py` (lines 109-119). -/
def resolve_user (users : List (String × UserConfig)) (user_arg : String) :
    Except (List (String × String)) String :=
  match find_user_by_key users user_arg with
  | some k => if !k.isEmpty then .ok k else resolve_user_rest users user_arg
  | none => resolve_user_rest users user_arg

/-- Errors that escape `get_token` / `get_user_roles`:
`ValueError("Missing client_id ...")`, `ValueError("Missing email ...")`,
`ValueError("Authentication failed")`, a re-raised `HTTPStatusError`, and the
`KeyError` from a 2xx body without an `access_token` field. -/
inductive AuthErr where
  | missingClientId (key : String)
  | missingEmail (key : String)
  | authFailed
  | httpError (status : Nat)
  | missingAccessToken
deriving DecidableEq, Repr

/-- Answers to the three `Prompt.ask` calls of `create_environment`
(`Prompt.ask` returns its default when the user just presses Enter, so the
answer string already incorporates the default). -/
structure EnvPrompts where
  sso_domain : String := ""
  realm : String := ""
  client_id : String := ""
deriving DecidableEq, Repr

/-- Answers to the `getpass` calls of `get_user_credentials`: the secret
typed when a brand-new user entry is created, and the secret typed when an
existing user has no stored secret. -/
structure CredPrompts where
  new_user_secret : String := ""
  missing_secret : String := ""
deriving DecidableEq, Repr

/-- Answers to the prompts of the 401-recovery branch of `get_token`:
the `Prompt.ask` for a client id (before `.strip()`) and the `getpass`
for a replacement secret (empty string means the user pressed Enter). -/
structure RecoveryPrompts where
  new_client_id : String := ""
  new_secret : String := ""
deriving DecidableEq, Repr

/-- All interactive input an execution of `get_token` can consume. -/
structure GetTokenInputs where
  env_prompts : EnvPrompts := {}
  cred_prompts : CredPrompts := {}
  recov : RecoveryPrompts := {}
deriving DecidableEq, Repr

/-- A token-endpoint response: HTTP status and the `access_token` field of
the JSON body (`none` when the field is absent). -/
structure HttpResp where
  status : Nat := 200
  access_token : Option String := none
deriving DecidableEq, Repr

/-- The form-encoded body of one grant POST, in insertion order. -/
abbrev GrantData := List (String × String)

instance {ε α : Type} [DecidableEq ε] [DecidableEq α] : DecidableEq (Except ε α) :=
  fun a b =>
    match a, b with
    | .ok x, .ok y => decidable_of_iff (x = y) (by simp)
    | .error x, .error y => decidable_of_iff (x = y) (by simp)
    | .ok _, .error _ => isFalse (by simp)
    | .error _, .ok _ => isFalse (by simp)

/-- Outcome of `get_token`: the returned token or raised error, the final
configuration/secret-store state, and the POSTs made to the token endpoint
(URL and body, in order). -/
structure GetTokenResult where
  result : Except AuthErr String
  state : St
  posts : List (String × GrantData)
deriving DecidableEq, Repr

/-- URL-scheme stripping of `create_environment` (`auth.py` lines 52-55). -/
def stripUrlScheme (d : String) : String :=
  if startswith d "https://" then String.mk (d.toList.drop 8)
  else if startswith d "http://" then String.mk (d.toList.drop 7)
  else d

/-- `SSOAuthenticator.create_environment` (`auth.py` lines 43-67) for a
given `env_key`: normalise the domain answer, build the entry, store and
save it.  Returns the new entry and the updated state. -/
def create_environment (st : St) (env_key : String) (ans : EnvPrompts) :
    EnvConfig × St :=
  let client_id := pyStrip ans.client_id
  let stripped := stripUrlScheme (pyStrip ans.sso_domain)
  let domain := String.mk (stripped.toList.reverse.dropWhile (fun c => c == '/')).reverse
  let cfg : EnvConfig :=
    { sso_url := "https://" ++ domain, realm := ans.realm,
      client_id := if client_id.isEmpty then none else some client_id }
  (cfg, { st with environments := aset st.environments env_key cfg })

/-- `SSOAuthenticator.get_sso_url` (`auth.py` lines 69-75): look the
environment up, creating it interactively when absent, and return
`{sso_url}/realms/{realm}`. -/
def get_sso_url (st : St) (env_key : String) (ans : EnvPrompts) : String × St :=
  match alookup st.environments env_key with
  | some env => (env.sso_url ++ "/realms/" ++ env.realm, st)
  | none =>
    let cs := create_environment st env_key ans
    (cs.1.sso_url ++ "/realms/" ++ cs.1.realm, cs.2)

/-- `SSOAuthenticator.get_user_credentials` (`auth.py` lines 155-206):
resolve the user key, create the entry (and store its typed secret) when
absent, and return `(credential, secret, auth_type)` — prompting for and
storing the secret when none is in the keyring. -/
def get_user_credentials (st : St) (environment user_key : String)
    (pr : CredPrompts) : Except AuthErr (String × String × String) × St :=
  let st1 : St :=
    if st.users.any (fun p => p.1 == environment) then st
    else { st with users := st.users ++ [(environment, [])] }
  let users := envUsers st1 environment
  let actual_key := (find_user_by_key users user_key).getD user_key
  let st2 : St :=
    if users.any (fun p => p.1 == actual_key) then st1
    else if actual_key.toList.contains '@' then
      let newUsers := aset st1.users environment
        (aset users actual_key { auth_type := some "password", email := some actual_key })
      let newSecrets := setSecret st1.secrets (environment, actual_key, "password")
        pr.new_user_secret
      { st1 with users := newUsers, secrets := newSecrets }
    else
      let newUsers := aset st1.users environment
        (aset users actual_key
          { auth_type := some "client_credentials", client_id := some actual_key })
      let newSecrets := setSecret st1.secrets (environment, actual_key, "client_secret")
        pr.new_user_secret
      { st1 with users := newUsers, secrets := newSecrets }
  let user_config := (alookup (envUsers st2 environment) actual_key).getD {}
  let auth_type := user_config.auth_type.getD "password"
  if auth_type == "client_credentials" then
    if !(pyT user_config.client_id) then (.error (.missingClientId actual_key), st2)
    else
      let cid := user_config.client_id.getD ""
      let cs0 := getSecret st2.secrets (environment, actual_key, "client_secret")
      if !(pyT cs0) then
        let newSecrets :=
          setSecret st2.secrets (environment, actual_key, "client_secret") pr.missing_secret
        (.ok (cid, pr.missing_secret, auth_type), { st2 with secrets := newSecrets })
      else (.ok (cid, cs0.getD "", auth_type), st2)
  else
    if !(pyT user_config.email) then (.error (.missingEmail actual_key), st2)
    else
      let email := user_config.email.getD ""
      let pw0 := getSecret st2.secrets (environment, actual_key, "password")
      if !(pyT pw0) then
        let newSecrets :=
          setSecret st2.secrets (environment, actual_key, "password") pr.missing_secret
        (.ok (email, pr.missing_secret, auth_type), { st2 with secrets := newSecrets })
      else (.ok (email, pw0.getD "", auth_type), st2)

/-- The grant body for `auth_type == "client_credentials"`. -/
def ccData (cid secret : String) : GrantData :=
  [("grant_type", "client_credentials"), ("client_id", cid), ("client_secret", secret)]

/-- The grant body for the password grant; `client_id` is appended only
when truthy (`if client_id: data["client_id"] = client_id`). -/
def pwData (username password : String) (client_id : Option String) : GrantData :=
  [("grant_type", "password"), ("username", username), ("password", password)]
    ++ (if pyT client_id then [("client_id", client_id.getD "")] else [])

/-- `response.raise_for_status()` followed by `response.json()["access_token"]`,
composed with the `except` clauses of `get_token`: `httpx` raises
`HTTPStatusError` for every non-2xx status, which `get_token` maps to
`ValueError("Authentication failed")` when the status is 401 and re-raises
otherwise; a missing `access_token` field is a `KeyError`, re-raised. -/
def finishResp (r : HttpResp) : Except AuthErr String :=
  if 200 ≤ r.status ∧ r.status < 300 then
    match r.access_token with
    | some t => .ok t
    | none => .error .missingAccessToken
  else if r.status == 401 then .error .authFailed
  else .error (.httpError r.status)

/-- The credential-recovery block of `get_token` (`auth.py` lines 226-258),
entered when the first POST returned 401: for a password identity,
optionally capture and persist a client id when none is configured, then
prompt for a replacement secret, persisting it (under the *passed*
`user_key`) when one is typed; for a client-credentials identity, prompt
for a replacement client secret likewise.  Returns the body of the retry
POST and the state after any persistence. -/
def recovery401 (stb : St) (environment user_key : String)
    (recov : RecoveryPrompts) (auth_type cred1 cred2 : String)
    (client_id : Option String) : GrantData × St :=
  if auth_type == "password" then
    let cidst : Option String × St :=
      if pyT client_id then (client_id, stb)
      else
        let ncid := pyStrip recov.new_client_id
        if ncid.isEmpty then (client_id, stb)
        else
          let ec := (alookup stb.environments environment).getD {}
          let newEnvs := aset stb.environments environment { ec with client_id := some ncid }
          (some ncid, { stb with environments := newEnvs })
    let np := recov.new_secret
    if !np.isEmpty then
      let newSecrets := setSecret cidst.2.secrets (environment, user_key, "password") np
      (pwData cred1 np cidst.1, { cidst.2 with secrets := newSecrets })
    else (pwData cred1 cred2 cidst.1, cidst.2)
  else
    let ns := recov.new_secret
    if !ns.isEmpty then
      let newSecrets := setSecret stb.secrets (environment, user_key, "client_secret") ns
      (ccData cred1 ns, { stb with secrets := newSecrets })
    else (ccData cred1 cred2, stb)

/-- `SSOAuthenticator.get_token` (`auth.py` lines 208-271).  `oracle n` is
the provider's response to the `n`-th POST made to the token endpoint. -/
def get_token (st : St) (environment user_key : String) (inp : GetTokenInputs)
    (oracle : Nat → HttpResp) : GetTokenResult :=
  let gs := get_sso_url st environment inp.env_prompts
  match get_user_credentials gs.2 environment user_key inp.cred_prompts with
  | (.error e, stb) => ⟨.error e, stb, []⟩
  | (.ok (cred1, cred2, auth_type), stb) =>
    let token_url := gs.1 ++ "/protocol/openid-connect/token"
    let client_id := ((alookup stb.environments environment).getD {}).client_id
    let data0 : GrantData :=
      if auth_type == "client_credentials" then ccData cred1 cred2
      else pwData cred1 cred2 client_id
    if (oracle 0).status == 401 then
      let ds := recovery401 stb environment user_key inp.recov auth_type cred1 cred2 client_id
      ⟨finishResp (oracle 1), ds.2, [(token_url, data0), (token_url, ds.1)]⟩
    else
      ⟨finishResp (oracle 0), stb, [(token_url, data0)]⟩

/-- A decoded claims object, as observed by `_extract_roles_from_payload`:
`realm_roles = some rs` models a payload whose `realm_access` entry is a
dict containing a `roles` list `rs`; `none` covers an absent `realm_access`,
a non-dict value, or a dict without `roles` (all skipped identically by the
code).  `resource_access` lists the entries of the `resource_access` dict in
insertion order, each with its `roles` list (`none` again covering a
non-dict entry or one without `roles`). -/
structure TokenPayload where
  realm_roles : Option (List String) := none
  resource_access : List (String × Option (List String)) := []
deriving DecidableEq, Repr

/-- The `"{resource}:{role}"` strings collected from `resource_access`, in
iteration order. -/
def resourceRoles (ra : List (String × Option (List String))) : List String :=
  ra.flatMap (fun e => (e.2.getD []).map (fun role => e.1 ++ ":" ++ role))

/-- Python `sorted` on strings: the ascending reordering under the
lexicographic order (any sorted permutation of a list with respect to a
total antisymmetric order is unique, so insertion sort is extensionally
`sorted`). -/
def pySorted (l : List String) : List String :=
  List.insertionSort (fun a b => strle a b = true) l

/-- `SSOAuthenticator._extract_roles_from_payload` (`auth.py` lines
285-295): realm roles, then the resource-qualified roles, sorted. -/
def extract_roles_from_payload (p : TokenPayload) : List String :=
  pySorted ((p.realm_roles.getD []) ++ resourceRoles p.resource_access)

/-- The padding step of `_decode_jwt_payload` (`auth.py` line 279):
`payload += '=' * (4 - len(payload) % 4) if len(payload) % 4 else ''`. -/
def pad4 (s : String) : String :=
  if s.length % 4 ≠ 0 then s ++ String.mk (List.replicate (4 - s.length % 4) '=') else s

/-- `SSOAuthenticator._decode_jwt_payload` (`auth.py` lines 273-283).
`b64` stands for `base64.urlsafe_b64decode` and `js` for `json.loads`
composed with the claims-shape reading of the result; `none` models the
exception the library call would raise.  The enclosing `try/except` turns
every failure into empty claims, so the function is total and never
raises. -/
def decode_jwt_payload (b64 : String → Option (List Nat))
    (js : List Nat → Option TokenPayload) (token : String) : TokenPayload :=
  let parts := pySplit '.' token
  if parts.length != 3 then {}
  else
    match b64 (pad4 (parts.getD 1 "")) with
    | none => {}
    | some bytes =>
      match js bytes with
      | none => {}
      | some payload => payload

/-- The userinfo GET issued by `get_user_roles`: method, URL, and the
`Authorization` header. -/
structure URequest where
  method : String
  url : String
  auth_header : String
deriving DecidableEq, Repr

/-- The provider's behaviour on the userinfo GET: `timeout` models a
transport-level exception, `status` the HTTP status, and `body` the parsed
JSON claims (`none` when parsing raises). -/
structure UserinfoResp where
  timeout : Bool := false
  status : Nat := 200
  body : Option TokenPayload := none
deriving DecidableEq, Repr

/-- Outcome of `get_user_roles`: the `{"jwt": ..., "userinfo": ...}` role
lists (or the propagated `get_token` error), the final state, and the
provider request that was issued for the secondary role source (`none`
when `get_token` already failed). -/
structure RolesResult where
  result : Except AuthErr (List String × List String)
  state : St
  request : Option URequest
deriving DecidableEq, Repr

/-- `SSOAuthenticator.get_user_roles` (`auth.py` lines 297-318): acquire a
token, decode its claims for the `jwt` roles, then GET the userinfo
endpoint with a bearer header for the `userinfo` roles; any failure of
that call (transport error, non-2xx status via `raise_for_status`, or an
unparsable body) is swallowed, leaving the `userinfo` list empty. -/
def get_user_roles (st : St) (environment user_key : String)
    (inp : GetTokenInputs) (oracle : Nat → HttpResp)
    (b64 : String → Option (List Nat)) (js : List Nat → Option TokenPayload)
    (uresp : UserinfoResp) : RolesResult :=
  let r := get_token st environment user_key inp oracle
  match r.result with
  | .error e => ⟨.error e, r.state, none⟩
  | .ok token =>
    let jwt_roles := extract_roles_from_payload (decode_jwt_payload b64 js token)
    let gs := get_sso_url r.state environment inp.env_prompts
    let req : URequest :=
      ⟨"GET", gs.1 ++ "/protocol/openid-connect/userinfo", "Bearer " ++ token⟩
    let userinfo_roles :=
      if uresp.timeout then []
      else if ¬(200 ≤ uresp.status ∧ uresp.status < 300) then []
      else
        match uresp.body with
        | none => []
        | some p => extract_roles_from_payload p
    ⟨.ok (jwt_roles, userinfo_roles), gs.2, some req⟩

/-! ### Order facts for the lexicographic comparator -/

theorem charListLe_total : ∀ x y, charListLe x y = true ∨ charListLe y x = true := by
  intro x
  induction x with
  | nil => intro y; left; rfl
  | cons a as ih =>
    intro y
    cases y with
    | nil => right; rfl
    | cons b bs =>
      rcases Nat.lt_trichotomy a.toNat b.toNat with h | h | h
      · left; simp [charListLe, h]
      · rcases ih bs with h2 | h2
        · left; simp [charListLe, h, Nat.lt_irrefl, h2]
        · right; simp [charListLe, h, Nat.lt_irrefl, h2]
      · right; simp [charListLe, h]

theorem charListLe_trans : ∀ x y z, charListLe x y = true → charListLe y z = true →
    charListLe x z = true := by
  intro x
  induction x with
  | nil => intro y z _ _; rfl
  | cons a as ih =>
    intro y z hxy hyz
    cases y with
    | nil => simp [charListLe] at hxy
    | cons b bs =>
      cases z with
      | nil => simp [charListLe] at hyz
      | cons c cs =>
        simp only [charListLe] at hxy hyz ⊢
        rcases Nat.lt_trichotomy a.toNat b.toNat with h1 | h1 | h1 <;>
          rcases Nat.lt_trichotomy b.toNat c.toNat with h2 | h2 | h2 <;>
          simp [h1, h2, Nat.lt_irrefl] at hxy hyz ⊢ <;>
          first
          | omega
          | exact ih bs cs hxy hyz

theorem charListLe_antisymm : ∀ x y, charListLe x y = true → charListLe y x = true →
    x = y := by
  intro x
  induction x with
  | nil =>
    intro y _ hyx
    cases y with
    | nil => rfl
    | cons b bs => simp [charListLe] at hyx
  | cons a as ih =>
    intro y hxy hyx
    cases y with
    | nil => simp [charListLe] at hxy
    | cons b bs =>
      simp only [charListLe] at hxy hyx
      rcases Nat.lt_trichotomy a.toNat b.toNat with h1 | h1 | h1
      · simp [h1, Nat.lt_asymm h1] at hyx
      · have hab : a = b := Char.eq_of_val_eq (UInt32.ext h1)
        subst hab
        simp [Nat.lt_irrefl] at hxy hyx
        rw [ih bs hxy hyx]
      · simp [h1, Nat.lt_asymm h1] at hxy

instance : DecidableRel (fun a b : String => strle a b = true) :=
  fun _ _ => instDecidableEqBool _ _

instance : IsTotal String (fun a b : String => strle a b = true) :=
  ⟨fun a b => charListLe_total a.toList b.toList⟩

instance : IsTrans String (fun a b : String => strle a b = true) :=
  ⟨fun a b c => charListLe_trans a.toList b.toList c.toList⟩

instance : IsAntisymm String (fun a b : String => strle a b = true) :=
  ⟨fun a b h1 h2 => String.ext (charListLe_antisymm a.toList b.toList h1 h2)⟩

theorem pySorted_sorted (l : List String) :
    List.Sorted (fun a b : String => strle a b = true) (pySorted l) :=
  List.sorted_insertionSort _ l

theorem pySorted_perm (l : List String) : List.Perm (pySorted l) l :=
  List.perm_insertionSort _ l

theorem pySorted_congr {l₁ l₂ : List String} (h : List.Perm l₁ l₂) :
    pySorted l₁ = pySorted l₂ :=
  List.eq_of_perm_of_sorted ((pySorted_perm l₁).trans (h.trans (pySorted_perm l₂).symm))
    (pySorted_sorted l₁) (pySorted_sorted l₂)

/-! ### C7 — role extraction -/

/-- C7 (amended): for every claims payload, `_extract_roles_from_payload`
returns the lexicographically sorted *list* (duplicates preserved, not a
duplicate-free set) of `realm_access.roles` together with
`"{resource}:{role}"` for every role of every `resource_access` entry; the
result does not depend on the insertion order of the `resource_access`
mapping, and the payload
`{"realm_access":{"roles":["a","b"]},"resource_access":{"svc":{"roles":["x"]}}}`
yields exactly `["a","b","svc:x"]`. -/
theorem c7_extract_roles_sorted_order_independent :
    ∀ p q : TokenPayload,
      List.Sorted (fun a b : String => strle a b = true) (extract_roles_from_payload p) ∧
      (p.realm_roles = q.realm_roles → List.Perm p.resource_access q.resource_access →
        extract_roles_from_payload p = extract_roles_from_payload q) ∧
      extract_roles_from_payload ⟨some ["a", "b"], [("svc", some ["x"])]⟩ =
        ["a", "b", "svc:x"] := by
  intro p q
  refine ⟨pySorted_sorted _, ?_, by decide⟩
  intro hr hperm
  unfold extract_roles_from_payload
  rw [hr]
  exact pySorted_congr (List.Perm.append_left _ (hperm.flatMap_right _))

/-- C7 is false as stated: the code sorts with `sorted(roles)` but never
deduplicates, so a payload whose realm roles repeat yields `["a","a"]` —
not a duplicate-free set. -/
theorem c7_counterexample :
    extract_roles_from_payload ⟨some ["a", "a"], []⟩ = ["a", "a"] ∧
    ¬ (extract_roles_from_payload ⟨some ["a", "a"], []⟩).Nodup := by decide

theorem c7_witness :
    List.Sorted (fun a b : String => strle a b = true)
      (extract_roles_from_payload ⟨some ["a"], [("r", some ["x"]), ("s", none)]⟩) ∧
    extract_roles_from_payload ⟨some ["a"], [("r", some ["x"]), ("s", none)]⟩ =
      extract_roles_from_payload ⟨some ["a"], [("s", none), ("r", some ["x"])]⟩ := by
  have h := c7_extract_roles_sorted_order_independent
    ⟨some ["a"], [("r", some ["x"]), ("s", none)]⟩
    ⟨some ["a"], [("s", none), ("r", some ["x"])]⟩
  exact ⟨h.1, h.2.1 rfl (by decide)⟩

/-! ### C8 — soft-failing JWT decoding -/

/-- C8: for every token string that does not have exactly three
dot-separated segments, or whose middle segment fails base64url decoding,
or whose decoded bytes fail JSON parsing, `_decode_jwt_payload` returns
the empty claims object.  The Lean embedding is a total function — the
`try/except` of the source catches every library exception — so no
exception can escape. -/
theorem c8_decode_malformed :
    ∀ (b64 : String → Option (List Nat)) (js : List Nat → Option TokenPayload)
      (token : String),
      (pySplit '.' token).length ≠ 3 ∨
        b64 (pad4 ((pySplit '.' token).getD 1 "")) = none ∨
        (∃ bs, b64 (pad4 ((pySplit '.' token).getD 1 "")) = some bs ∧ js bs = none) →
      decode_jwt_payload b64 js token = {} := by
  intro b64 js token h
  unfold decode_jwt_payload
  rcases h with h | h | ⟨bs, h1, h2⟩
  · simp [h]
  · by_cases h3 : (pySplit '.' token).length = 3
    · simp [h3] at h ⊢
      simp [h]
    · simp [h3]
  · by_cases h3 : (pySplit '.' token).length = 3
    · simp [h3] at h1 ⊢
      simp [h1, h2]
    · simp [h3]

theorem c8_witness :
    decode_jwt_payload (fun _ => none) (fun _ => none) "x" = {} :=
  c8_decode_malformed _ _ "x" (Or.inl (by decide))

/-! ### C10 — behaviour of the empty query -/

theorem startswith_empty (s : String) : startswith s "" = true := by
  unfold startswith
  rw [show "".toList = ([] : List Char) from rfl]
  cases s.toList <;> rfl

theorem userMatches_empty_query (key : String) (c : UserConfig) :
    userMatchesQuery "" key c = true := by
  simp [userMatchesQuery, startswith_empty]

/-- C10: with the empty query every key is a prefix match, so
`find_environment_by_prefix ""` succeeds exactly when a single environment
is configured (returning it), `find_users_by_prefix ""` lists every
configured user of the environment, and two or more configured keys make
the empty query ambiguous (no unique environment; two or more user
matches). -/
theorem c10_empty_query :
    ∀ (envs : List String) (k : String) (users : List (String × UserConfig)),
      ( find_environment_by_prefix envs "" = some k ↔ envs = [k]) ∧
      find_users_by_prefix users "" = users.map (fun u => (u.1, display u.1 u.2)) ∧
      (2 ≤ envs.length → find_environment_by_prefix envs "" = none) ∧
      (2 ≤ users.length → 2 ≤ ( find_users_by_prefix users "").length) := by
  intro envs k users
  have hf : envs.filter (fun key => startswith key "") = envs := by
    simp [startswith_empty, List.filter_true]
  have hu : users.filter (fun u => userMatchesQuery "" u.1 u.2) = users := by
    simp [userMatches_empty_query, List.filter_true]
  refine ⟨?_, ?_, ?_, ?_⟩
  · simp only [ find_environment_by_prefix, hf]
    constructor
    · intro h
      cases envs with
      | nil => simp at h
      | cons a l =>
        cases l with
        | nil => simp at h; simp [h]
        | cons b m => simp at h
    · intro h
      subst h
      simp
  · unfold find_users_by_prefix
    rw [hu]
  · intro h2
    simp only [ find_environment_by_prefix, hf]
    cases envs with
    | nil => simp at h2
    | cons a l =>
      cases l with
      | nil => simp at h2
      | cons b m => simp
  · intro h2
    unfold find_users_by_prefix
    rw [hu]
    simpa using h2

theorem c10_witness :
    find_environment_by_prefix ["dev"] "" = some "dev" ∧
    find_environment_by_prefix ["dev", "prod"] "" = none ∧
    2 ≤ ( find_users_by_prefix [("a", {}), ("b", {})] "").length := by
  refine ⟨((c10_empty_query ["dev"] "dev" []).1).mpr rfl,
          (c10_empty_query ["dev", "prod"] "" []).2.2.1 (by decide),
          (c10_empty_query [] "" [("a", {}), ("b", {})]).2.2.2 (by decide)⟩

/-! ### C6 — environment resolution by prefix-match count -/

/-- C6 (amended): when the prefix matches exactly one configured
environment key, `resolve_environment` returns that key; when it matches
two or more, resolution fails carrying the match list (`sys.exit(1)` after
printing the ambiguous matches); when it matches none, resolution does
*not* fail — it returns the query itself as a literal new key for creation
flows. -/
theorem c6_resolve_environment_cases :
    ∀ (envs : List String) (p k : String),
      ( find_environments_by_prefix envs p = [k] → resolve_environment envs p = .ok k) ∧
      (2 ≤ ( find_environments_by_prefix envs p).length →
        resolve_environment envs p = .error ( find_environments_by_prefix envs p)) ∧
      ( find_environments_by_prefix envs p = [] → resolve_environment envs p = .ok p) := by
  intro envs p k
  refine ⟨?_, ?_, ?_⟩
  · intro h
    unfold find_environments_by_prefix at h
    simp only [resolve_environment, find_environment_by_prefix, h]
    by_cases hk : k.isEmpty
    · simp [hk, resolve_environment_rest, find_environments_by_prefix, h]
    · simp [hk]
  · intro h
    unfold find_environments_by_prefix at h ⊢
    simp only [resolve_environment, find_environment_by_prefix]
    have hne : (envs.filter (fun key => startswith key p)).length ≠ 1 := by omega
    simp only [beq_iff_eq, hne, if_false, ite_false]
    simp [resolve_environment_rest, find_environments_by_prefix]
    omega
  · intro h
    unfold find_environments_by_prefix at h
    simp [resolve_environment, find_environment_by_prefix, h,
      resolve_environment_rest, find_environments_by_prefix]

/-- C6 is false as stated for the zero-match case: with environments
`dev` and `prod`, resolving the prefix `x` (which matches neither) does
not fail with an identifier-not-found error — it succeeds, returning the
literal query. -/
theorem c6_counterexample :
    find_environments_by_prefix ["dev", "prod"] "x" = [] ∧
    resolve_environment ["dev", "prod"] "x" = .ok "x" := by decide

theorem c6_witness :
    resolve_environment ["dev", "dav"] "de" = .ok "dev" ∧
    resolve_environment ["dev", "dav"] "d" = .error ["dev", "dav"] ∧
    resolve_environment ["dev", "dav"] "x" = .ok "x" := by
  have h1 := (c6_resolve_environment_cases ["dev", "dav"] "de" "dev").1 (by decide)
  have h2 := (c6_resolve_environment_cases ["dev", "dav"] "d" "").2.1 (by decide)
  have h3 := (c6_resolve_environment_cases ["dev", "dav"] "x" "").2.2 (by decide)
  have he : find_environments_by_prefix ["dev", "dav"] "d" = ["dev", "dav"] := by decide
  rw [he] at h2
  exact ⟨h1, h2, h3⟩

theorem pyT_false_getD (o : Option String) (h : pyT o = false) : o.getD "" = "" := by
  unfold pyT at h
  simp at h
  exact (String.isEmpty_iff _).mp h

theorem startswith_empty_left (q : String) : startswith "" q = (q == "") := by
  unfold startswith
  rw [show "".toList = ([] : List Char) from rfl]
  cases hq : q.toList with
  | nil =>
    have hq0 : q = "" := String.ext hq
    simp [hq0, List.isPrefixOf]
  | cons a l =>
    have hq0 : q ≠ "" := by
      intro h
      rw [h] at hq
      simp at hq
    simp [List.isPrefixOf, beq_eq_false_iff_ne.mpr hq0]

/-- The prefix-match condition exactly as the specification words it
(claim C2): the candidate key, or the candidate's email local-part, or the
candidate's client identifier starts with `q` — with no truthiness guards.
Stated separately to compare against the code's guarded condition. -/
def specPrefixMatch (q : String) (u : String × UserConfig) : Bool :=
  startswith u.1 q || startswith (localPart (u.2.email.getD "")) q ||
    startswith (u.2.client_id.getD "") q

theorem userMatches_eq_spec (q : String) (u : String × UserConfig) :
    userMatchesQuery q u.1 u.2 = specPrefixMatch q u := by
  by_cases hq : q = ""
  · subst hq
    simp [userMatchesQuery, specPrefixMatch, startswith_empty]
  · have hsw : startswith "" q = false := by
      rw [ startswith_empty_left]
      exact beq_eq_false_iff_ne.mpr hq
    unfold userMatchesQuery specPrefixMatch
    cases he : pyT u.2.email with
    | true =>
      cases hc : pyT u.2.client_id with
      | true => simp
      | false =>
        rw [pyT_false_getD _ hc]
        simp [hsw]
    | false =>
      have hel : localPart (u.2.email.getD "") = "" := by
        rw [pyT_false_getD _ he]
        rfl
      cases hc : pyT u.2.client_id with
      | true =>
        rw [hel]
        simp [hsw]
      | false =>
        rw [hel, pyT_false_getD _ hc]
        simp [hsw]


theorem any_key_eq (users : List (String × UserConfig)) (q : String) :
    users.any (fun p => p.1 == q) = true ↔ ∃ c, (q, c) ∈ users := by
  rw [List.any_eq_true]
  constructor
  · rintro ⟨x, hx, he⟩
    refine ⟨x.2, ?_⟩
    have : x.1 = q := by simpa using he
    rw [← this]
    simpa using hx
  · rintro ⟨c, hc⟩
    exact ⟨(q, c), hc, by simp⟩

theorem emailPred_none_iff (users : List (String × UserConfig)) (q : String) :
    users.find? (fun p => pyT p.2.email && (localPart (p.2.email.getD "") == q)) = none ↔
      ¬ ∃ k2 c, (k2, c) ∈ users ∧ pyT c.email = true ∧ localPart (c.email.getD "") = q := by
  rw [List.find?_eq_none]
  constructor
  · rintro h ⟨k2, c, hm, hp, hl⟩
    have := h (k2, c) hm
    simp [hp, hl] at this
  · rintro h x hx hpx
    simp only [Bool.and_eq_true, beq_iff_eq] at hpx
    exact h ⟨x.1, x.2, by simpa using hx, hpx.1, hpx.2⟩

/-- C2: user resolution is short-circuiting, in order: an exact key match
returns the query itself; otherwise an exact email local-part match
returns a matching candidate's key; otherwise, if exactly one candidate's
key, email local-part, or client identifier starts with the query, that
candidate's key is returned; otherwise no unique result is produced
(`find_user_by_key` returns `None`). -/
theorem c2_user_resolution :
    ∀ (users : List (String × UserConfig)) (q k : String),
      ((∃ c, (q, c) ∈ users) → find_user_by_key users q = some q) ∧
      ((¬ ∃ c, (q, c) ∈ users) →
        (∃ k2 c, (k2, c) ∈ users ∧ pyT c.email = true ∧ localPart (c.email.getD "") = q) →
        ∃ k2 c, find_user_by_key users q = some k2 ∧ (k2, c) ∈ users ∧
          pyT c.email = true ∧ localPart (c.email.getD "") = q) ∧
      ((¬ ∃ c, (q, c) ∈ users) →
        (¬ ∃ k2 c, (k2, c) ∈ users ∧ pyT c.email = true ∧ localPart (c.email.getD "") = q) →
        (users.filter (specPrefixMatch q)).map Prod.fst = [k] →
        find_user_by_key users q = some k) ∧
      ((¬ ∃ c, (q, c) ∈ users) →
        (¬ ∃ k2 c, (k2, c) ∈ users ∧ pyT c.email = true ∧ localPart (c.email.getD "") = q) →
        (users.filter (specPrefixMatch q)).length ≠ 1 →
        find_user_by_key users q = none) := by
  intro users q k
  have hfe : users.filter (fun p => userMatchesQuery q p.1 p.2) =
      users.filter (specPrefixMatch q) :=
    List.filter_congr (fun x _ => userMatches_eq_spec q x)
  refine ⟨?_, ?_, ?_, ?_⟩
  · intro h
    have ha : users.any (fun p => p.1 == q) = true := (any_key_eq users q).mpr h
    simp [find_user_by_key, ha]
  · intro h1 h2
    have ha : users.any (fun p => p.1 == q) = false := by
      cases hh : users.any (fun p => p.1 == q) with
      | true => exact absurd ((any_key_eq users q).mp hh) h1
      | false => rfl
    rcases h2 with ⟨k2, c, hm, hp, hl⟩
    have hs : (users.find? (fun p => pyT p.2.email &&
        (localPart (p.2.email.getD "") == q))).isSome = true := by
      rw [List.find?_isSome]
      exact ⟨(k2, c), hm, by simp [hp, hl]⟩
    rcases ho : users.find? (fun p => pyT p.2.email &&
        (localPart (p.2.email.getD "") == q)) with _ | pf
    · rw [ho] at hs; simp at hs
    · have hpf := List.find?_some ho
      have hmf := List.mem_of_find?_eq_some ho
      simp only [Bool.and_eq_true, beq_iff_eq] at hpf
      refine ⟨pf.1, pf.2, ?_, by simpa using hmf, hpf.1, hpf.2⟩
      simp [find_user_by_key, ha, ho]
  · intro h1 h2 h3
    have ha : users.any (fun p => p.1 == q) = false := by
      cases hh : users.any (fun p => p.1 == q) with
      | true => exact absurd ((any_key_eq users q).mp hh) h1
      | false => rfl
    have hn : users.find? (fun p => pyT p.2.email &&
        (localPart (p.2.email.getD "") == q)) = none :=
      (emailPred_none_iff users q).mpr h2
    rcases hfl : users.filter (specPrefixMatch q) with _ | ⟨x, xs⟩
    · rw [hfl] at h3; simp at h3
    · rcases xs with _ | ⟨y, ys⟩
      · rw [hfl] at h3
        simp at h3
        simp [find_user_by_key, ha, hn, hfe, hfl, h3]
      · rw [hfl] at h3
        simp at h3
  · intro h1 h2 h3
    have ha : users.any (fun p => p.1 == q) = false := by
      cases hh : users.any (fun p => p.1 == q) with
      | true => exact absurd ((any_key_eq users q).mp hh) h1
      | false => rfl
    have hn : users.find? (fun p => pyT p.2.email &&
        (localPart (p.2.email.getD "") == q)) = none :=
      (emailPred_none_iff users q).mpr h2
    simp [find_user_by_key, ha, hn, hfe, h3]


theorem c2_witness :
    find_user_by_key [("alice", ⟨some "password", some "al@x.com", none⟩)] "alice" =
      some "alice" ∧
    (∃ k2 c, find_user_by_key [("alice", ⟨some "password", some "al@x.com", none⟩)] "al" =
      some k2 ∧ (k2, c) ∈ [("alice", (⟨some "password", some "al@x.com", none⟩ : UserConfig))] ∧
      pyT c.email = true ∧ localPart (c.email.getD "") = "al") ∧
    find_user_by_key [("bob", ⟨some "client_credentials", none, some "bx"⟩)] "b" =
      some "bob" ∧
    find_user_by_key [("bob", ⟨some "client_credentials", none, some "bx"⟩),
      ("boc", ⟨some "client_credentials", none, some "bc"⟩)] "b" = none := by
  refine ⟨?_, ?_, ?_, ?_⟩
  · exact (c2_user_resolution _ "alice" "").1
      ⟨⟨some "password", some "al@x.com", none⟩, by decide⟩
  · exact (c2_user_resolution _ "al" "").2.1
      (by rintro ⟨c, hc⟩; simp at hc)
      ⟨"alice", ⟨some "password", some "al@x.com", none⟩, by decide, by decide, by decide⟩
  · exact (c2_user_resolution _ "b" "bob").2.2.1
      (by rintro ⟨c, hc⟩; simp at hc)
      (by rintro ⟨k2, c, hm, hp, hl⟩; simp at hm; rcases hm with ⟨h1, h2⟩; subst h2
          simp [pyT] at hp
          exact absurd hp (by decide))
      (by decide)
  · exact (c2_user_resolution _ "b" "").2.2.2
      (by rintro ⟨c, hc⟩; simp at hc)
      (by rintro ⟨k2, c, hm, hp, hl⟩; simp at hm
          rcases hm with ⟨h1, h2⟩ | ⟨h1, h2⟩ <;> subst h2 <;> simp [pyT] at hp <;>
            exact absurd hp (by decide))
      (by decide)


theorem alookup_any {α : Type} (l : List (String × α)) (k : String) (v : α)
    (h : alookup l k = some v) : l.any (fun p => p.1 == k) = true := by
  unfold alookup at h
  rcases hf : l.find? (fun p => p.1 == k) with _ | x
  · rw [hf] at h; simp at h
  · rw [List.any_eq_true]
    have hp := List.find?_some hf
    exact ⟨x, List.mem_of_find?_eq_some hf, hp⟩

theorem get_sso_url_of_mem (st : St) (env : String) (ans : EnvPrompts)
    (ec : EnvConfig) (h : alookup st.environments env = some ec) :
    get_sso_url st env ans = (ec.sso_url ++ "/realms/" ++ ec.realm, st) := by
  simp [get_sso_url, h]

theorem get_user_credentials_password_present
    (st : St) (env u : String) (pr : CredPrompts) (us : List (String × UserConfig))
    (uc : UserConfig) (s : String)
    (hus : alookup st.users env = some us)
    (huc : alookup us u = some uc)
    (hat : uc.auth_type = some "password")
    (hem : pyT uc.email = true)
    (hpw : getSecret st.secrets (env, u, "password") = some s)
    (hs : s.isEmpty = false) :
    get_user_credentials st env u pr = (.ok (uc.email.getD "", s, "password"), st) := by
  have hanyenv : st.users.any (fun p => p.1 == env) = true := alookup_any _ _ _ hus
  have hanyu : us.any (fun p => p.1 == u) = true := alookup_any _ _ _ huc
  have he : envUsers st env = us := by simp [envUsers, hus]
  have hfk : find_user_by_key us u = some u := by simp [find_user_by_key, hanyu]
  simp only [pyT, Bool.not_eq_true'] at hem
  unfold get_user_credentials
  simp [hanyenv, he, hfk, hanyu, huc, hat, hem, hpw, pyT, hs]

theorem get_user_credentials_cc_present
    (st : St) (env u : String) (pr : CredPrompts) (us : List (String × UserConfig))
    (uc : UserConfig) (s : String)
    (hus : alookup st.users env = some us)
    (huc : alookup us u = some uc)
    (hat : uc.auth_type = some "client_credentials")
    (hcid : pyT uc.client_id = true)
    (hpw : getSecret st.secrets (env, u, "client_secret") = some s)
    (hs : s.isEmpty = false) :
    get_user_credentials st env u pr =
      (.ok (uc.client_id.getD "", s, "client_credentials"), st) := by
  have hanyenv : st.users.any (fun p => p.1 == env) = true := alookup_any _ _ _ hus
  have hanyu : us.any (fun p => p.1 == u) = true := alookup_any _ _ _ huc
  have he : envUsers st env = us := by simp [envUsers, hus]
  have hfk : find_user_by_key us u = some u := by simp [find_user_by_key, hanyu]
  simp only [pyT, Bool.not_eq_true'] at hcid
  unfold get_user_credentials
  simp [hanyenv, he, hfk, hanyu, huc, hat, hcid, hpw, pyT, hs]


/-- C1: whatever the configuration, prompts, and provider behaviour, an
execution of `get_token` POSTs to the token endpoint at most twice; if a
first POST was made and the provider answered it with 401, exactly one
retry POST is made (two POSTs total); and if that retry also returns 401,
`get_token` raises `ValueError("Authentication failed")` — never a third
attempt. -/
theorem c1_get_token_retry_once :
    ∀ (st : St) (env u : String) (inp : GetTokenInputs) (oracle : Nat → HttpResp),
      (get_token st env u inp oracle).posts.length ≤ 2 ∧
      ((get_token st env u inp oracle).posts ≠ [] → (oracle 0).status = 401 →
        (get_token st env u inp oracle).posts.length = 2) ∧
      ((get_token st env u inp oracle).posts ≠ [] → (oracle 0).status = 401 →
        (oracle 1).status = 401 →
        (get_token st env u inp oracle).result = Except.error AuthErr.authFailed) := by
  intro st env u inp oracle
  unfold get_token
  dsimp only
  rcases hc : get_user_credentials (get_sso_url st env inp.env_prompts).2 env u
      inp.cred_prompts with ⟨res, stb⟩
  rcases res with e | ⟨c1, c2, at2⟩
  · simp
  · by_cases h401 : ((oracle 0).status == 401) = true
    · simp only [h401, if_true]
      refine ⟨by simp, fun _ _ => by simp, fun _ _ h4 => ?_⟩
      simp [finishResp, h4]
    · simp only [h401, if_false]
      have hne : (oracle 0).status ≠ 401 := by
        intro h
        exact h401 (by simp [h])
      exact ⟨by simp, fun _ h => absurd h hne, fun _ h _ => absurd h hne⟩


theorem alookup_cons_self {α : Type} (l : List (String × α)) (k : String) (v : α) :
    alookup ((k, v) :: l) k = some v := by
  rw [alookup, List.find?_cons_of_pos _ (by simp)]
  rfl

theorem alookup_append_absent {α : Type} (l : List (String × α)) (k : String) (v : α)
    (h : l.any (fun p => p.1 == k) = false) : alookup (l ++ [(k, v)]) k = some v := by
  induction l with
  | nil => simpa using alookup_cons_self [] k v
  | cons a as ih =>
    simp only [List.any_cons, Bool.or_eq_false_iff] at h
    have h1 : ¬((a.1 == k) = true) := by simp [h.1]
    rw [List.cons_append, alookup,
      @List.find?_cons_of_neg _ (fun p => p.1 == k) a (as ++ [(k, v)]) h1]
    have := ih h.2
    rw [alookup] at this
    exact this

theorem alookup_map_overwrite {α : Type} (l : List (String × α)) (k : String) (v : α)
    (h : l.any (fun p => p.1 == k) = true) :
    alookup (l.map (fun p => if p.1 == k then (k, v) else p)) k = some v := by
  induction l with
  | nil => simp at h
  | cons a as ih =>
    simp only [List.any_cons, Bool.or_eq_true] at h
    by_cases ha : (a.1 == k) = true
    · have hhead : (if (a.1 == k) = true then (k, v) else a) = (k, v) := by simp [ha]
      rw [List.map_cons, hhead]
      exact alookup_cons_self _ k v
    · rw [List.map_cons, if_neg ha, alookup,
        @List.find?_cons_of_neg _ (fun p => p.1 == k) a
          (as.map (fun p => if (p.1 == k) = true then (k, v) else p)) ha]
      have := ih (by simpa using h.resolve_left ha)
      rw [alookup] at this
      exact this

theorem alookup_aset_self {α : Type} (l : List (String × α)) (k : String) (v : α) :
    alookup (aset l k v) k = some v := by
  unfold aset
  cases hb : l.any (fun p => p.1 == k) with
  | true =>
    simp only [hb, if_true]
    exact alookup_map_overwrite l k v hb
  | false =>
    simp only [hb, Bool.false_eq_true, if_false]
    exact alookup_append_absent l k v hb

theorem get_user_credentials_environments (st : St) (e u : String) (pr : CredPrompts) :
    (get_user_credentials st e u pr).2.environments = st.environments := by
  unfold get_user_credentials
  dsimp only
  repeat' split <;> try rfl

theorem recovery401_environments (stb : St) (e u : String) (rp : RecoveryPrompts)
    (a c1 c2 : String) (cid : Option String) :
    (recovery401 stb e u rp a c1 c2 cid).2.environments = stb.environments ∨
    ∃ v, (recovery401 stb e u rp a c1 c2 cid).2.environments = aset stb.environments e v := by
  unfold recovery401
  dsimp only
  cases ha : (a == "password") with
  | false =>
    simp only [ha, Bool.false_eq_true, if_false]
    cases hn : rp.new_secret.isEmpty with
    | false => left; simp [hn]
    | true => left; simp [hn]
  | true =>
    simp only [ha, if_true]
    cases hc : pyT cid with
    | true =>
      simp only [hc, if_true]
      cases hn : rp.new_secret.isEmpty with
      | false => left; simp [hn]
      | true => left; simp [hn]
    | false =>
      simp only [hc, Bool.false_eq_true, if_false]
      cases hni : (pyStrip rp.new_client_id).isEmpty with
      | true =>
        cases hn : rp.new_secret.isEmpty with
        | false => left; simp [hni, hn]
        | true => left; simp [hni, hn]
      | false =>
        cases hn : rp.new_secret.isEmpty with
        | false =>
          right
          refine ⟨{ (alookup stb.environments e).getD {} with
            client_id := some (pyStrip rp.new_client_id) }, ?_⟩
          simp [hni, hn]
        | true =>
          right
          refine ⟨{ (alookup stb.environments e).getD {} with
            client_id := some (pyStrip rp.new_client_id) }, ?_⟩
          simp [hni, hn]


/-- C4 (amended): `get_token` is not idempotent with respect to
configuration — when the environment key is unknown it creates (after
interactive prompts) a new environment entry, with no 401 involved; but
when the environment exists, the user entry exists, and a non-empty secret
is already stored for it (for either auth kind), and the initial response
is not 401, `get_token` leaves the configuration and secret store
completely unchanged. -/
theorem c4_get_token_config_effects :
    ∀ (st : St) (env u : String) (inp : GetTokenInputs) (oracle : Nat → HttpResp)
      (ec : EnvConfig) (us : List (String × UserConfig)) (uc : UserConfig) (s : String),
      (alookup st.environments env = none →
        (alookup (get_token st env u inp oracle).state.environments env).isSome = true) ∧
      (alookup st.environments env = some ec →
        alookup st.users env = some us →
        alookup us u = some uc →
        uc.auth_type = some "password" →
        pyT uc.email = true →
        getSecret st.secrets (env, u, "password") = some s →
        s.isEmpty = false →
        (oracle 0).status ≠ 401 →
        (get_token st env u inp oracle).state = st) ∧
      (alookup st.environments env = some ec →
        alookup st.users env = some us →
        alookup us u = some uc →
        uc.auth_type = some "client_credentials" →
        pyT uc.client_id = true →
        getSecret st.secrets (env, u, "client_secret") = some s →
        s.isEmpty = false →
        (oracle 0).status ≠ 401 →
        (get_token st env u inp oracle).state = st) := by
  intro st env u inp oracle ec us uc s
  refine ⟨?_, ?_, ?_⟩
  · intro hnone
    unfold get_token
    dsimp only
    have hg : get_sso_url st env inp.env_prompts =
        ((create_environment st env inp.env_prompts).1.sso_url ++ "/realms/" ++
          (create_environment st env inp.env_prompts).1.realm,
          (create_environment st env inp.env_prompts).2) := by
      simp [get_sso_url, hnone]
    rw [hg]
    dsimp only
    rcases hcred : get_user_credentials (create_environment st env inp.env_prompts).2
        env u inp.cred_prompts with ⟨res, stb⟩
    have hstb : stb.environments =
        aset st.environments env (create_environment st env inp.env_prompts).1 := by
      have hpres := get_user_credentials_environments
        (create_environment st env inp.env_prompts).2 env u inp.cred_prompts
      rw [hcred] at hpres
      exact hpres
    rcases res with e | ⟨c1, c2, at2⟩
    · rw [hstb, alookup_aset_self]
      rfl
    · by_cases h401 : ((oracle 0).status == 401) = true
      · simp only [h401, if_true]
        rcases recovery401_environments stb env u inp.recov at2 c1 c2
            ((alookup stb.environments env).getD {}).client_id with h | ⟨v, h⟩
        · rw [h, hstb, alookup_aset_self]
          rfl
        · rw [h, hstb, alookup_aset_self]
          rfl
      · simp only [h401, Bool.false_eq_true, if_false]
        rw [hstb, alookup_aset_self]
        rfl
  · intro hec hus huc hat hem hpw hs hns
    have hcred := get_user_credentials_password_present st env u inp.cred_prompts
      us uc s hus huc hat hem hpw hs
    unfold get_token
    dsimp only
    rw [get_sso_url_of_mem st env inp.env_prompts ec hec]
    dsimp only
    rw [hcred]
    dsimp only
    have h4 : ((oracle 0).status == 401) = false := beq_eq_false_iff_ne.mpr hns
    simp only [h4, Bool.false_eq_true, if_false]
  · intro hec hus huc hat hcid hpw hs hns
    have hcred := get_user_credentials_cc_present st env u inp.cred_prompts
      us uc s hus huc hat hcid hpw hs
    unfold get_token
    dsimp only
    rw [get_sso_url_of_mem st env inp.env_prompts ec hec]
    dsimp only
    rw [hcred]
    dsimp only
    have h4 : ((oracle 0).status == 401) = false := beq_eq_false_iff_ne.mpr hns
    simp only [h4, Bool.false_eq_true, if_false]


/-- Witness for C1: a client-credentials identity whose provider answers
401 twice. -/
theorem c1_witness :
    (get_token ⟨[("e", ⟨"https://s", "r", none⟩)],
        [("e", [("bob", ⟨some "client_credentials", none, some "bob"⟩)])],
        [(("e", "bob", "client_secret"), "sec")]⟩ "e" "bob" {}
      (fun _ => ⟨401, none⟩)).posts.length ≤ 2 ∧
    (get_token ⟨[("e", ⟨"https://s", "r", none⟩)],
        [("e", [("bob", ⟨some "client_credentials", none, some "bob"⟩)])],
        [(("e", "bob", "client_secret"), "sec")]⟩ "e" "bob" {}
      (fun _ => ⟨401, none⟩)).posts.length = 2 ∧
    (get_token ⟨[("e", ⟨"https://s", "r", none⟩)],
        [("e", [("bob", ⟨some "client_credentials", none, some "bob"⟩)])],
        [(("e", "bob", "client_secret"), "sec")]⟩ "e" "bob" {}
      (fun _ => ⟨401, none⟩)).result = Except.error AuthErr.authFailed := by
  have h := c1_get_token_retry_once ⟨[("e", ⟨"https://s", "r", none⟩)],
    [("e", [("bob", ⟨some "client_credentials", none, some "bob"⟩)])],
    [(("e", "bob", "client_secret"), "sec")]⟩ "e" "bob" {} (fun _ => ⟨401, none⟩)
  exact ⟨h.1, h.2.1 (by decide) rfl, h.2.2 (by decide) rfl rfl⟩

/-- C4 is false as stated: starting from an empty configuration, a single
`get_token` call whose only provider response is 200 (no 401 anywhere)
creates an environment entry, creates a user entry, and writes a secret to
the keyring — configuration and secret-store mutation without any
authentication failure. -/
theorem c4_counterexample :
    (get_token ⟨[], [], []⟩ "e" "bob"
        ⟨⟨"sso.e.com", "master", ""⟩, ⟨"s3", ""⟩, ⟨"", ""⟩⟩
        (fun _ => ⟨200, some "tok"⟩)).result = Except.ok "tok" ∧
    (alookup (get_token ⟨[], [], []⟩ "e" "bob"
        ⟨⟨"sso.e.com", "master", ""⟩, ⟨"s3", ""⟩, ⟨"", ""⟩⟩
        (fun _ => ⟨200, some "tok"⟩)).state.environments "e").isSome = true ∧
    (alookup (envUsers (get_token ⟨[], [], []⟩ "e" "bob"
        ⟨⟨"sso.e.com", "master", ""⟩, ⟨"s3", ""⟩, ⟨"", ""⟩⟩
        (fun _ => ⟨200, some "tok"⟩)).state "e") "bob").isSome = true ∧
    getSecret (get_token ⟨[], [], []⟩ "e" "bob"
        ⟨⟨"sso.e.com", "master", ""⟩, ⟨"s3", ""⟩, ⟨"", ""⟩⟩
        (fun _ => ⟨200, some "tok"⟩)).state.secrets ("e", "bob", "client_secret") =
      some "s3" ∧
    (get_token ⟨[], [], []⟩ "e" "bob"
        ⟨⟨"sso.e.com", "master", ""⟩, ⟨"s3", ""⟩, ⟨"", ""⟩⟩
        (fun _ => ⟨200, some "tok"⟩)).posts.length = 1 := by decide


/-- Witness for C4 at concrete states: environment auto-creation from the
empty state, and the no-mutation frame for existing password and
client-credentials identities. -/
theorem c4_witness :
    (alookup (get_token ⟨[], [], []⟩ "e" "bob"
        ⟨⟨"sso.e.com", "master", ""⟩, ⟨"s3", ""⟩, ⟨"", ""⟩⟩
        (fun _ => ⟨200, some "tok"⟩)).state.environments "e").isSome = true ∧
    (get_token ⟨[("e", ⟨"https://s", "r", some "cid"⟩)],
        [("e", [("alice", ⟨some "password", some "al@x.com", none⟩)])],
        [(("e", "alice", "password"), "pw")]⟩ "e" "alice" {}
      (fun _ => ⟨200, some "t"⟩)).state =
      ⟨[("e", ⟨"https://s", "r", some "cid"⟩)],
        [("e", [("alice", ⟨some "password", some "al@x.com", none⟩)])],
        [(("e", "alice", "password"), "pw")]⟩ ∧
    (get_token ⟨[("e", ⟨"https://s", "r", none⟩)],
        [("e", [("bob", ⟨some "client_credentials", none, some "bob"⟩)])],
        [(("e", "bob", "client_secret"), "sec")]⟩ "e" "bob" {}
      (fun _ => ⟨200, some "t"⟩)).state =
      ⟨[("e", ⟨"https://s", "r", none⟩)],
        [("e", [("bob", ⟨some "client_credentials", none, some "bob"⟩)])],
        [(("e", "bob", "client_secret"), "sec")]⟩ := by
  refine ⟨(c4_get_token_config_effects ⟨[], [], []⟩ "e" "bob"
      ⟨⟨"sso.e.com", "master", ""⟩, ⟨"s3", ""⟩, ⟨"", ""⟩⟩
      (fun _ => ⟨200, some "tok"⟩) {} [] {} "").1 (by decide), ?_, ?_⟩
  · exact (c4_get_token_config_effects
      ⟨[("e", ⟨"https://s", "r", some "cid"⟩)],
        [("e", [("alice", ⟨some "password", some "al@x.com", none⟩)])],
        [(("e", "alice", "password"), "pw")]⟩ "e" "alice" {}
      (fun _ => ⟨200, some "t"⟩) ⟨"https://s", "r", some "cid"⟩
      [("alice", ⟨some "password", some "al@x.com", none⟩)]
      ⟨some "password", some "al@x.com", none⟩ "pw").2.1
      (by decide) (by decide) (by decide) rfl (by decide) (by decide) (by decide)
      (by decide)
  · exact (c4_get_token_config_effects
      ⟨[("e", ⟨"https://s", "r", none⟩)],
        [("e", [("bob", ⟨some "client_credentials", none, some "bob"⟩)])],
        [(("e", "bob", "client_secret"), "sec")]⟩ "e" "bob" {}
      (fun _ => ⟨200, some "t"⟩) ⟨"https://s", "r", none⟩
      [("bob", ⟨some "client_credentials", none, some "bob"⟩)]
      ⟨some "client_credentials", none, some "bob"⟩ "sec").2.2
      (by decide) (by decide) (by decide) rfl (by decide) (by decide) (by decide)
      (by decide)


theorem getSecret_setSecret_self (s : List (SecretKey × String)) (k : SecretKey)
    (v : String) : getSecret (setSecret s k v) k = some v := by
  rw [getSecret, setSecret, List.find?_cons_of_pos _ (by simp)]
  rfl

theorem find?_filter_ne (s : List (SecretKey × String)) (k k' : SecretKey) (h : k' ≠ k) :
    (s.filter (fun e => !(e.1 == k))).find? (fun e => e.1 == k') =
      s.find? (fun e => e.1 == k') := by
  induction s with
  | nil => rfl
  | cons a as ih =>
    by_cases ha : (a.1 == k) = true
    · have hk : a.1 = k := by simpa using ha
      have hp : ¬((fun e : SecretKey × String => e.1 == k') a = true) := by
        simp [hk]
        exact fun hh => absurd hh.symm h
      rw [List.filter_cons_of_neg (by simp [ha]),
        @List.find?_cons_of_neg _ (fun e => e.1 == k') a as hp]
      exact ih
    · rw [List.filter_cons_of_pos (by simp [ha])]
      by_cases hp : ((fun e : SecretKey × String => e.1 == k') a = true)
      · rw [@List.find?_cons_of_pos _ (fun e => e.1 == k') a
            (as.filter (fun e => !(e.1 == k))) hp,
          @List.find?_cons_of_pos _ (fun e => e.1 == k') a as hp]
      · rw [@List.find?_cons_of_neg _ (fun e => e.1 == k') a
            (as.filter (fun e => !(e.1 == k))) hp,
          @List.find?_cons_of_neg _ (fun e => e.1 == k') a as hp]
        exact ih

theorem getSecret_setSecret_other (s : List (SecretKey × String)) (k k' : SecretKey)
    (v : String) (h : k' ≠ k) :
    getSecret (setSecret s k v) k' = getSecret s k' := by
  unfold getSecret setSecret
  rw [@List.find?_cons_of_neg _ (fun e => e.1 == k') (k, v)
      (s.filter (fun e => !(e.1 == k))) (by simp; exact fun hh => absurd hh.symm h)]
  rw [find?_filter_ne s k k' h]


/-- C5 (amended): for an identity addressed by its exact (canonical) user
key — the only way the CLI ever calls `get_token`, since both resolvers
return canonical keys — when the initial grant returns 401 and the user
types a replacement secret, that secret is persisted under the same
`(environment, user)` keyring key that held the original secret, for the
identity's secret kind (`password` for a `Password` identity,
`client_secret` for a `ClientCredentials` identity): the old value is
overwritten there, no other secret-store key changes, and the single
retry carries the new secret; if the user types nothing, the retry
carries the original secret and the secret store is untouched.  This
holds for both auth kinds and whether or not the environment has a
configured client id; for a password identity the recovery may in
addition persist a newly captured client id into the environment entry,
and the environment entry is unchanged whenever a client id is already
configured or none is typed.  (`c5_counterexample` shows the claim fails
as stated when `get_token` is called with an unresolved alias: the new
secret is then stored under the alias key while the original remains.) -/
theorem c5_recovery_secret_persistence :
    ∀ (st : St) (env u : String) (inp : GetTokenInputs) (oracle : Nat → HttpResp)
      (ec : EnvConfig) (us : List (String × UserConfig)) (uc : UserConfig) (s : String),
      (alookup st.environments env = some ec →
        alookup st.users env = some us →
        alookup us u = some uc →
        uc.auth_type = some "password" →
        pyT uc.email = true →
        getSecret st.secrets (env, u, "password") = some s →
        s.isEmpty = false →
        (oracle 0).status = 401 →
        ((inp.recov.new_secret.isEmpty = false →
          (get_token st env u inp oracle).state.secrets =
            setSecret st.secrets (env, u, "password") inp.recov.new_secret ∧
          getSecret (get_token st env u inp oracle).state.secrets (env, u, "password") =
            some inp.recov.new_secret ∧
          (∀ k' : SecretKey, k' ≠ (env, u, "password") →
            getSecret (get_token st env u inp oracle).state.secrets k' =
              getSecret st.secrets k') ∧
          (get_token st env u inp oracle).state.users = st.users ∧
          (∃ cid2, (get_token st env u inp oracle).posts =
            [(ec.sso_url ++ "/realms/" ++ ec.realm ++ "/protocol/openid-connect/token",
                pwData (uc.email.getD "") s ec.client_id),
              (ec.sso_url ++ "/realms/" ++ ec.realm ++ "/protocol/openid-connect/token",
                pwData (uc.email.getD "") inp.recov.new_secret cid2)])) ∧
        (inp.recov.new_secret.isEmpty = true →
          (get_token st env u inp oracle).state.secrets = st.secrets ∧
          (get_token st env u inp oracle).state.users = st.users ∧
          (∃ cid2, (get_token st env u inp oracle).posts =
            [(ec.sso_url ++ "/realms/" ++ ec.realm ++ "/protocol/openid-connect/token",
                pwData (uc.email.getD "") s ec.client_id),
              (ec.sso_url ++ "/realms/" ++ ec.realm ++ "/protocol/openid-connect/token",
                pwData (uc.email.getD "") s cid2)])) ∧
        ((pyT ec.client_id = true ∨ (pyStrip inp.recov.new_client_id).isEmpty = true) →
          (get_token st env u inp oracle).state.environments = st.environments))) ∧
      (alookup st.environments env = some ec →
        alookup st.users env = some us →
        alookup us u = some uc →
        uc.auth_type = some "client_credentials" →
        pyT uc.client_id = true →
        getSecret st.secrets (env, u, "client_secret") = some s →
        s.isEmpty = false →
        (oracle 0).status = 401 →
        ((inp.recov.new_secret.isEmpty = false →
          (get_token st env u inp oracle).state.secrets =
            setSecret st.secrets (env, u, "client_secret") inp.recov.new_secret ∧
          getSecret (get_token st env u inp oracle).state.secrets
            (env, u, "client_secret") = some inp.recov.new_secret ∧
          (∀ k' : SecretKey, k' ≠ (env, u, "client_secret") →
            getSecret (get_token st env u inp oracle).state.secrets k' =
              getSecret st.secrets k') ∧
          (get_token st env u inp oracle).state.environments = st.environments ∧
          (get_token st env u inp oracle).state.users = st.users ∧
          (get_token st env u inp oracle).posts =
            [(ec.sso_url ++ "/realms/" ++ ec.realm ++ "/protocol/openid-connect/token",
                ccData (uc.client_id.getD "") s),
              (ec.sso_url ++ "/realms/" ++ ec.realm ++ "/protocol/openid-connect/token",
                ccData (uc.client_id.getD "") inp.recov.new_secret)]) ∧
        (inp.recov.new_secret.isEmpty = true →
          (get_token st env u inp oracle).state = st ∧
          (get_token st env u inp oracle).posts =
            [(ec.sso_url ++ "/realms/" ++ ec.realm ++ "/protocol/openid-connect/token",
                ccData (uc.client_id.getD "") s),
              (ec.sso_url ++ "/realms/" ++ ec.realm ++ "/protocol/openid-connect/token",
                ccData (uc.client_id.getD "") s)]))) := by
  intro st env u inp oracle ec us uc s
  constructor
  · intro hec hus huc hat hem hpw hs h401
    have hcred := get_user_credentials_password_present st env u inp.cred_prompts
      us uc s hus huc hat hem hpw hs
    unfold get_token
    dsimp only
    rw [get_sso_url_of_mem st env inp.env_prompts ec hec]
    dsimp only
    rw [hcred]
    dsimp only
    have h4 : ((oracle 0).status == 401) = true := by simp [h401]
    simp only [h4, if_true]
    have hcidv : ((alookup st.environments env).getD {}).client_id = ec.client_id := by
      rw [hec]
      rfl
    unfold recovery401
    dsimp only
    rw [hcidv]
    simp only [show ("password" == "client_credentials") = false from by decide,
      Bool.false_eq_true, if_false,
      show ("password" == "password") = true from by decide, if_true]
    cases hcid : pyT ec.client_id with
    | true =>
      simp only [hcid, if_true]
      refine ⟨fun hn => ?_, fun hn => ?_, fun _ => ?_⟩
      · simp only [hn, Bool.not_false, if_true]
        repeat' apply And.intro
        all_goals first
          | trivial
          | exact getSecret_setSecret_self _ _ _
          | (intro k' hk'; exact getSecret_setSecret_other _ _ _ _ hk')
          | exact ⟨ec.client_id, rfl⟩
      · simp only [hn, Bool.not_true, Bool.false_eq_true, if_false]
        repeat' apply And.intro
        all_goals first
          | trivial
          | exact ⟨ec.client_id, rfl⟩
      · cases hn : inp.recov.new_secret.isEmpty with
        | false => simp [hn]
        | true => simp [hn]
    | false =>
      simp only [hcid, Bool.false_eq_true, if_false]
      cases hni : (pyStrip inp.recov.new_client_id).isEmpty with
      | true =>
        simp only [hni, if_true]
        refine ⟨fun hn => ?_, fun hn => ?_, fun _ => ?_⟩
        · simp only [hn, Bool.not_false, if_true]
          repeat' apply And.intro
          all_goals first
            | trivial
            | exact getSecret_setSecret_self _ _ _
            | (intro k' hk'; exact getSecret_setSecret_other _ _ _ _ hk')
            | exact ⟨ec.client_id, rfl⟩
        · simp only [hn, Bool.not_true, Bool.false_eq_true, if_false]
          repeat' apply And.intro
          all_goals first
            | trivial
            | exact ⟨ec.client_id, rfl⟩
        · cases hn : inp.recov.new_secret.isEmpty with
          | false => simp [hn]
          | true => simp [hn]
      | false =>
        simp only [hni, Bool.false_eq_true, if_false]
        refine ⟨fun hn => ?_, fun hn => ?_, fun hc => ?_⟩
        · simp only [hn, Bool.not_false, if_true]
          repeat' apply And.intro
          all_goals first
            | trivial
            | exact getSecret_setSecret_self _ _ _
            | (intro k' hk'; exact getSecret_setSecret_other _ _ _ _ hk')
            | exact ⟨some (pyStrip inp.recov.new_client_id), rfl⟩
        · simp only [hn, Bool.not_true, Bool.false_eq_true, if_false]
          repeat' apply And.intro
          all_goals first
            | trivial
            | exact ⟨some (pyStrip inp.recov.new_client_id), rfl⟩
        · rcases hc with hc | hc <;> exact hc.elim
  · intro hec hus huc hat hcid2 hpw hs h401
    have hcred := get_user_credentials_cc_present st env u inp.cred_prompts
      us uc s hus huc hat hcid2 hpw hs
    unfold get_token
    dsimp only
    rw [get_sso_url_of_mem st env inp.env_prompts ec hec]
    dsimp only
    rw [hcred]
    dsimp only
    have h4 : ((oracle 0).status == 401) = true := by simp [h401]
    simp only [h4, if_true]
    unfold recovery401
    dsimp only
    simp only [show ("client_credentials" == "password") = false from by decide,
      Bool.false_eq_true, if_false,
      show ("client_credentials" == "client_credentials") = true from by decide, if_true]
    refine ⟨fun hn => ?_, fun hn => ?_⟩
    · simp only [hn, Bool.not_false, if_true]
      repeat' apply And.intro
      all_goals first
        | trivial
        | exact getSecret_setSecret_self _ _ _
        | (intro k' hk'; exact getSecret_setSecret_other _ _ _ _ hk')
    · simp only [hn, Bool.not_true, Bool.false_eq_true, if_false]
      repeat' apply And.intro
      all_goals trivial

/-- C5 is false as stated: calling `get_token` with the alias `al` of the
stored user `alice` (resolved via the email local-part), a 401 plus a
newly typed secret `new` leaves the original secret under
`("e","alice","password")` untouched and stores `new` under the alias key
`("e","al","password")` — the line
`SecretManager.set_secret(environment, user_key, ...)` in `auth.py` uses
the caller-supplied `user_key`, not the resolved `actual_key`. -/
theorem c5_counterexample :
    (get_token ⟨[("e", ⟨"https://s", "r", none⟩)],
        [("e", [("alice", ⟨some "password", some "al@x.com", none⟩)])],
        [(("e", "alice", "password"), "old")]⟩ "e" "al"
      ⟨{}, {}, ⟨"", "new"⟩⟩
      (fun n => if n == 0 then ⟨401, none⟩ else ⟨200, some "tok"⟩)).result =
      Except.ok "tok" ∧
    getSecret (get_token ⟨[("e", ⟨"https://s", "r", none⟩)],
        [("e", [("alice", ⟨some "password", some "al@x.com", none⟩)])],
        [(("e", "alice", "password"), "old")]⟩ "e" "al"
      ⟨{}, {}, ⟨"", "new"⟩⟩
      (fun n => if n == 0 then ⟨401, none⟩ else ⟨200, some "tok"⟩)).state.secrets
      ("e", "alice", "password") = some "old" ∧
    getSecret (get_token ⟨[("e", ⟨"https://s", "r", none⟩)],
        [("e", [("alice", ⟨some "password", some "al@x.com", none⟩)])],
        [(("e", "alice", "password"), "old")]⟩ "e" "al"
      ⟨{}, {}, ⟨"", "new"⟩⟩
      (fun n => if n == 0 then ⟨401, none⟩ else ⟨200, some "tok"⟩)).state.secrets
      ("e", "al", "password") = some "new" := by decide

/-- Witness for C5 at concrete canonical invocations: a password identity
with a configured client id, a password identity in an environment without
one (with a client id captured during recovery), and a client-credentials
identity. -/
theorem c5_witness :
    getSecret (get_token ⟨[("e", ⟨"https://s", "r", some "cid"⟩)],
        [("e", [("alice", ⟨some "password", some "al@x.com", none⟩)])],
        [(("e", "alice", "password"), "old")]⟩ "e" "alice"
      ⟨{}, {}, ⟨"", "new"⟩⟩
      (fun n => if n == 0 then ⟨401, none⟩ else ⟨200, some "tok"⟩)).state.secrets
      ("e", "alice", "password") = some "new" ∧
    getSecret (get_token ⟨[("e", ⟨"https://s", "r", none⟩)],
        [("e", [("alice", ⟨some "password", some "al@x.com", none⟩)])],
        [(("e", "alice", "password"), "old")]⟩ "e" "alice"
      ⟨{}, {}, ⟨"nc", "new"⟩⟩
      (fun n => if n == 0 then ⟨401, none⟩ else ⟨200, some "tok"⟩)).state.secrets
      ("e", "alice", "password") = some "new" ∧
    getSecret (get_token ⟨[("e", ⟨"https://s", "r", none⟩)],
        [("e", [("bob", ⟨some "client_credentials", none, some "bob"⟩)])],
        [(("e", "bob", "client_secret"), "old")]⟩ "e" "bob"
      ⟨{}, {}, ⟨"", "ns"⟩⟩
      (fun n => if n == 0 then ⟨401, none⟩ else ⟨200, some "tok"⟩)).state.secrets
      ("e", "bob", "client_secret") = some "ns" ∧
    (get_token ⟨[("e", ⟨"https://s", "r", none⟩)],
        [("e", [("bob", ⟨some "client_credentials", none, some "bob"⟩)])],
        [(("e", "bob", "client_secret"), "old")]⟩ "e" "bob"
      ⟨{}, {}, ⟨"", "ns"⟩⟩
      (fun n => if n == 0 then ⟨401, none⟩ else ⟨200, some "tok"⟩)).posts =
      [("https://s" ++ "/realms/" ++ "r" ++ "/protocol/openid-connect/token",
          ccData "bob" "old"),
        ("https://s" ++ "/realms/" ++ "r" ++ "/protocol/openid-connect/token",
          ccData "bob" "ns")] := by
  have h1 := (c5_recovery_secret_persistence
    ⟨[("e", ⟨"https://s", "r", some "cid"⟩)],
      [("e", [("alice", ⟨some "password", some "al@x.com", none⟩)])],
      [(("e", "alice", "password"), "old")]⟩ "e" "alice"
    ⟨{}, {}, ⟨"", "new"⟩⟩
    (fun n => if n == 0 then ⟨401, none⟩ else ⟨200, some "tok"⟩)
    ⟨"https://s", "r", some "cid"⟩
    [("alice", ⟨some "password", some "al@x.com", none⟩)]
    ⟨some "password", some "al@x.com", none⟩ "old").1
    (by decide) (by decide) (by decide) rfl (by decide) (by decide)
    (by decide) (by decide)
  have h2 := (c5_recovery_secret_persistence
    ⟨[("e", ⟨"https://s", "r", none⟩)],
      [("e", [("alice", ⟨some "password", some "al@x.com", none⟩)])],
      [(("e", "alice", "password"), "old")]⟩ "e" "alice"
    ⟨{}, {}, ⟨"nc", "new"⟩⟩
    (fun n => if n == 0 then ⟨401, none⟩ else ⟨200, some "tok"⟩)
    ⟨"https://s", "r", none⟩
    [("alice", ⟨some "password", some "al@x.com", none⟩)]
    ⟨some "password", some "al@x.com", none⟩ "old").1
    (by decide) (by decide) (by decide) rfl (by decide) (by decide)
    (by decide) (by decide)
  have h3 := (c5_recovery_secret_persistence
    ⟨[("e", ⟨"https://s", "r", none⟩)],
      [("e", [("bob", ⟨some "client_credentials", none, some "bob"⟩)])],
      [(("e", "bob", "client_secret"), "old")]⟩ "e" "bob"
    ⟨{}, {}, ⟨"", "ns"⟩⟩
    (fun n => if n == 0 then ⟨401, none⟩ else ⟨200, some "tok"⟩)
    ⟨"https://s", "r", none⟩
    [("bob", ⟨some "client_credentials", none, some "bob"⟩)]
    ⟨some "client_credentials", none, some "bob"⟩ "old").2
    (by decide) (by decide) (by decide) rfl (by decide) (by decide)
    (by decide) (by decide)
  have h3a := h3.1 (by decide)
  exact ⟨(h1.1 (by decide)).2.1, (h2.1 (by decide)).2.1, h3a.2.1, h3a.2.2.2.2.2⟩

/-- C3 (amended): `get_user_roles` obtains the secondary role source the
same way for *both* auth kinds: one `GET {sso_url}/protocol/openid-connect/userinfo`
request carrying `Authorization: Bearer <token>`.  No introspection
endpoint is ever called (there is no introspection code in `auth.py`). -/
theorem c3_userinfo_request :
    ∀ (st : St) (env u : String) (inp : GetTokenInputs) (oracle : Nat → HttpResp)
      (b64 : String → Option (List Nat)) (js : List Nat → Option TokenPayload)
      (uresp : UserinfoResp) (token : String),
      (get_token st env u inp oracle).result = Except.ok token →
      (get_user_roles st env u inp oracle b64 js uresp).request =
        some ⟨"GET",
          (get_sso_url (get_token st env u inp oracle).state env inp.env_prompts).1 ++
            "/protocol/openid-connect/userinfo",
          "Bearer " ++ token⟩ := by
  intro st env u inp oracle b64 js uresp token h
  unfold get_user_roles
  dsimp only
  rw [h]

/-- C3 is false as stated: for a `ClientCredentials` identity the provider
call issued by `get_user_roles` is a GET of the userinfo endpoint with a
bearer header — not a POST of `.../token/introspect`. -/
theorem c3_counterexample :
    (get_user_roles ⟨[("e", ⟨"https://s", "r", none⟩)],
        [("e", [("bob", ⟨some "client_credentials", none, some "bob"⟩)])],
        [(("e", "bob", "client_secret"), "sec")]⟩ "e" "bob" {}
      (fun _ => ⟨200, some "tok"⟩) (fun _ => none) (fun _ => none) {}).request =
      some ⟨"GET", "https://s/realms/r/protocol/openid-connect/userinfo",
        "Bearer tok"⟩ ∧
    ("GET" : String) ≠ "POST" ∧
    ("https://s/realms/r/protocol/openid-connect/userinfo" : String) ≠
      "https://s/realms/r/protocol/openid-connect/token/introspect" := by decide

/-- Witness for C3 (amended) at a concrete password identity. -/
theorem c3_witness :
    (get_user_roles ⟨[("e", ⟨"https://s", "r", none⟩)],
        [("e", [("alice", ⟨some "password", some "al@x.com", none⟩)])],
        [(("e", "alice", "password"), "pw")]⟩ "e" "alice" {}
      (fun _ => ⟨200, some "tok"⟩) (fun _ => none) (fun _ => none) {}).request =
      some ⟨"GET",
        (get_sso_url (get_token ⟨[("e", ⟨"https://s", "r", none⟩)],
            [("e", [("alice", ⟨some "password", some "al@x.com", none⟩)])],
            [(("e", "alice", "password"), "pw")]⟩ "e" "alice" {}
          (fun _ => ⟨200, some "tok"⟩)).state "e" ({} : GetTokenInputs).env_prompts).1 ++
          "/protocol/openid-connect/userinfo",
        "Bearer " ++ "tok"⟩ :=
  c3_userinfo_request ⟨[("e", ⟨"https://s", "r", none⟩)],
      [("e", [("alice", ⟨some "password", some "al@x.com", none⟩)])],
      [(("e", "alice", "password"), "pw")]⟩ "e" "alice" {}
    (fun _ => ⟨200, some "tok"⟩) (fun _ => none) (fun _ => none) {} "tok" (by decide)

/-- C9: when `get_token` succeeds but the userinfo call fails for any
reason — transport timeout, a non-2xx status (which `raise_for_status`
turns into an exception), or an unparsable body — `get_user_roles` still
returns successfully, with the `userinfo` role list empty and the `jwt`
role list accurately decoded from the token itself. -/
theorem c9_userinfo_failure_soft :
    ∀ (st : St) (env u : String) (inp : GetTokenInputs) (oracle : Nat → HttpResp)
      (b64 : String → Option (List Nat)) (js : List Nat → Option TokenPayload)
      (uresp : UserinfoResp) (token : String),
      (get_token st env u inp oracle).result = Except.ok token →
      (uresp.timeout = true ∨ uresp.status < 200 ∨ 300 ≤ uresp.status ∨
        uresp.body = none) →
      (get_user_roles st env u inp oracle b64 js uresp).result =
        Except.ok (extract_roles_from_payload (decode_jwt_payload b64 js token), []) := by
  intro st env u inp oracle b64 js uresp token h hf
  unfold get_user_roles
  dsimp only
  rw [h]
  dsimp only
  by_cases ht : uresp.timeout = true
  · simp [ht]
  · rcases hf with hf | hf | hf | hf
    · exact absurd hf ht
    · have hr : ¬(200 ≤ uresp.status ∧ uresp.status < 300) := by omega
      simp [ht, hr]
    · have hr : ¬(200 ≤ uresp.status ∧ uresp.status < 300) := by omega
      simp [ht, hr]
    · by_cases hr : 200 ≤ uresp.status ∧ uresp.status < 300
      · simp [ht, hr, hf]
      · simp [ht, hr]

/-- Witness for C9: the userinfo call times out. -/
theorem c9_witness :
    (get_user_roles ⟨[("e", ⟨"https://s", "r", none⟩)],
        [("e", [("bob", ⟨some "client_credentials", none, some "bob"⟩)])],
        [(("e", "bob", "client_secret"), "sec")]⟩ "e" "bob" {}
      (fun _ => ⟨200, some "tok"⟩) (fun _ => none) (fun _ => none)
      ⟨true, 200, none⟩).result =
      Except.ok (extract_roles_from_payload
        (decode_jwt_payload (fun _ => none) (fun _ => none) "tok"), []) :=
  c9_userinfo_failure_soft ⟨[("e", ⟨"https://s", "r", none⟩)],
      [("e", [("bob", ⟨some "client_credentials", none, some "bob"⟩)])],
      [(("e", "bob", "client_secret"), "sec")]⟩ "e" "bob" {}
    (fun _ => ⟨200, some "tok"⟩) (fun _ => none) (fun _ => none)
    ⟨true, 200, none⟩ "tok" (by decide) (Or.inl rfl)

end SsoCli
